import Mathlib

/-!
Verification of the VSSS-Joystick teleoperation bridge.

The repository has two near-duplicate variants: `keyboard.py` (discrete key
events, class `KeyboardControl`) and `main.py` (continuous joystick axes,
class `JoystickControl`).  Both share the port resolver `find_stm32_port`,
the 12-byte `struct.pack('iff', robot_id, vl, vr)` frame codec, and the
`(id + 1) % 4` robot-address cycling.

Modelling conventions:
- Velocities are rationals (ℚ).  Every constant appearing in the sources
  (`1.0`, `0.5`, `0.1`, `0.05`) and every value derived from them by the
  mapping code is exactly representable in IEEE-754 binary32/binary64, so the
  rational model computes the same values the Python floats do.
- A float32 travelling through the frame codec is represented by its 32-bit
  pattern (a `Nat < 2^32`): `struct.pack`/`unpack` move the bit pattern
  verbatim, so bit-level round-trip is exactly value-level round-trip for
  every value representable as a float32.
- Bytes are `Nat`s (each proved `< 256`); the platform byte order of
  `struct.pack('iff', ...)` on the target (Linux on x86/ARM) is
  little-endian with no padding, giving the 12-byte record.
-/

namespace VSSS

/-! ### Frame codec: `struct.pack('iff', robot_id, vl, vr)` -/

/-- Serialize a natural number as `w` little-endian base-256 digits. -/
def natToLEBytes : Nat → Nat → List Nat
  | _, 0 => []
  | n, w + 1 => n % 256 :: natToLEBytes (n / 256) w

/-- Read back a little-endian base-256 digit list. -/
def leBytesToNat : List Nat → Nat
  | [] => 0
  | b :: bs => b + 256 * leBytesToNat bs

/-- Two's-complement representation of an `int32`, as a `Nat < 2^32`. -/
def int32ToNat (i : Int) : Nat := (i % (2 ^ 32)).toNat

/-- Interpret a `Nat < 2^32` as a two's-complement `int32`. -/
def natToInt32 (n : Nat) : Int := if n < 2 ^ 31 then (n : Int) else (n : Int) - 2 ^ 32

/-- `struct.pack('iff', robotId, vl, vr)`: 4-byte little-endian two's-complement
address followed by the two 4-byte float32 bit patterns, left wheel first.
`vl`/`vr` are the bit patterns of the float32 velocities. -/
def encodeFrame (robotId : Int) (vl vr : Nat) : List Nat :=
  natToLEBytes (int32ToNat robotId) 4 ++ natToLEBytes vl 4 ++ natToLEBytes vr 4

/-- `struct.unpack('iff', data)`: requires exactly 12 bytes, reads the int32
address and the two float32 bit patterns back out. -/
def decodeFrame : List Nat → Option (Int × Nat × Nat)
  | [a0, a1, a2, a3, b0, b1, b2, b3, c0, c1, c2, c3] =>
      some (natToInt32 (leBytesToNat [a0, a1, a2, a3]),
            leBytesToNat [b0, b1, b2, b3],
            leBytesToNat [c0, c1, c2, c3])
  | _ => none

/-! ### Keyboard variant (`keyboard.py`, class `KeyboardControl`) -/

/-- `self.MAX_SPEED = 1.0` (same constant in both variants). -/
def MAX_SPEED : ℚ := 1

/-- The mutable fields of `KeyboardControl` that the control logic touches. -/
structure KState where
  robot_id : Int
  vl : ℚ
  vr : ℚ
  forward : Bool
  backward : Bool
  left : Bool
  right : Bool
deriving Repr, DecidableEq

/-- `KeyboardControl.__init__`: id 0, velocities 0, no intents active. -/
def KState.init : KState :=
  { robot_id := 0, vl := 0, vr := 0,
    forward := false, backward := false, left := false, right := false }

/-- The logical keys the keyboard handler distinguishes. -/
inductive Key
  | up | down | leftArrow | rightArrow
  | w | s | a | d
  | x | escape
deriving Repr, DecidableEq

/-- One pygame event as seen by `KeyboardControl.process_input`. -/
inductive KEvent
  | quit
  | keydown (k : Key)
  | keyup (k : Key)
deriving Repr, DecidableEq

/-- The `KEYDOWN` branch of `process_input` (the `K_ESCAPE` early return is
handled by the event-loop function below). -/
def applyKeydown (st : KState) : Key → KState
  | .up => { st with forward := true }
  | .down => { st with backward := true }
  | .leftArrow => { st with left := true }
  | .rightArrow => { st with right := true }
  | .w => { st with forward := true }
  | .s => { st with backward := true }
  | .a => { st with left := true }
  | .d => { st with right := true }
  | .x => { st with robot_id := (st.robot_id + 1) % 4 }
  | .escape => st

/-- The `KEYUP` branch of `process_input`; keys without a branch (x, escape)
leave the state unchanged. -/
def applyKeyup (st : KState) : Key → KState
  | .up => { st with forward := false }
  | .down => { st with backward := false }
  | .leftArrow => { st with left := false }
  | .rightArrow => { st with right := false }
  | .w => { st with forward := false }
  | .s => { st with backward := false }
  | .a => { st with left := false }
  | .d => { st with right := false }
  | .x => st
  | .escape => st

/-- The `for event in pygame.event.get()` loop: `QUIT` and `KEYDOWN K_ESCAPE`
return `False` immediately (remaining events unprocessed); otherwise all
events are applied and the loop reports `True`. -/
def processEvents (st : KState) : List KEvent → KState × Bool
  | [] => (st, true)
  | e :: es =>
    match e with
    | .quit => (st, false)
    | .keydown k =>
      if k = .escape then (st, false) else processEvents (applyKeydown st k) es
    | .keyup k => processEvents (applyKeyup st k) es

/-- `KeyboardControl.update_velocities`: reset to `(0,0)` then sum the
contribution of each active intent. -/
def update_velocities (st : KState) : KState :=
  let vl : ℚ := 0
  let vr : ℚ := 0
  let vl := if st.forward then vl + MAX_SPEED else vl
  let vr := if st.forward then vr + MAX_SPEED else vr
  let vl := if st.backward then vl - MAX_SPEED else vl
  let vr := if st.backward then vr - MAX_SPEED else vr
  let vl := if st.left then vl - MAX_SPEED / 2 else vl
  let vr := if st.left then vr + MAX_SPEED / 2 else vr
  let vl := if st.right then vl + MAX_SPEED / 2 else vl
  let vr := if st.right then vr - MAX_SPEED / 2 else vr
  { st with vl := vl, vr := vr }

/-- Observable outcome of one `KeyboardControl.process_input` call. -/
structure KTickResult where
  state : KState
  running : Bool
  errorLogged : Bool
deriving Repr, DecidableEq

/-- One keyboard tick: process queued events; unless an exit event fired,
update velocities and call `send_data`.  `send_data` wraps the serial write in
`try/except`: `writeOk = false` only produces an error log line. -/
def kTick (st : KState) (events : List KEvent) (writeOk : Bool) : KTickResult :=
  let pr := processEvents st events
  if pr.2 then
    { state := update_velocities pr.1, running := true, errorLogged := !writeOk }
  else
    { state := pr.1, running := false, errorLogged := false }

/-! ### Joystick variant (`main.py`, class `JoystickControl`) -/

/-- The mutable fields of `JoystickControl` that the control logic touches. -/
structure JState where
  robot_id : Int
  last_x_button_state : Bool
deriving Repr, DecidableEq

/-- `JoystickControl.__init__`: `robot_id = 0`, `last_x_button_state = False`. -/
def JState.init : JState := { robot_id := 0, last_x_button_state := false }

/-- The dead-zone step of `process_input`: `if abs(v) < 0.1: v = 0`. -/
def deadzone (v : ℚ) : ℚ := if |v| < 1 / 10 then 0 else v

/-- The velocity computation of `JoystickControl.process_input`: the raw
forward-axis reading is sign-inverted (`y = -get_axis(1)`), both axes pass
through the dead zone, then `vl = (y + x) * MAX_SPEED`,
`vr = (y - x) * MAX_SPEED`. -/
def joyVelocities (rawY rawX : ℚ) : ℚ × ℚ :=
  let y := deadzone (-rawY)
  let x := deadzone rawX
  ((y + x) * MAX_SPEED, (y - x) * MAX_SPEED)

/-- The address-cycling step of `JoystickControl.process_input`: a
false→true edge of the X button advances `robot_id` modulo 4, and the sampled
button state is stored for the next tick. -/
def jTick (st : JState) (btn : Bool) : JState :=
  let st1 :=
    if btn && !st.last_x_button_state then
      { st with robot_id := (st.robot_id + 1) % 4 }
    else st
  { st1 with last_x_button_state := btn }

/-- Observable outcome of one `JoystickControl.process_input` call. -/
structure JTickResult where
  state : JState
  vl : ℚ
  vr : ℚ
  errorLogged : Bool
deriving Repr, DecidableEq

/-- One joystick tick: sample axes and button, compute velocities, run the
edge-triggered address update, then call `send_data` (whose serial write is
wrapped in `try/except`; failure only produces an error log line). -/
def jTickFull (st : JState) (rawY rawX : ℚ) (btn : Bool) (writeOk : Bool) : JTickResult :=
  let v := joyVelocities rawY rawX
  { state := jTick st btn, vl := v.1, vr := v.2, errorLogged := !writeOk }

/-! ### Port resolver (`find_stm32_port`, identical in both files) -/

/-- One pyudev tty device entry: optional USB ids and the device node path. -/
structure UdevDevice where
  vendor_id : Option String
  model_id : Option String
  device_node : String
deriving Repr, DecidableEq

/-- `ID_VENDOR_ID` and `ID_MODEL_ID` both present and equal to `0483:5740`. -/
def matchesStm32 (d : UdevDevice) : Bool :=
  decide (d.vendor_id = some "0483" ∧ d.model_id = some "5740")

/-- `find_stm32_port`: walk the enumerated tty devices in order; entries
missing either id are skipped; the first entry with ids `0483:5740` wins;
otherwise raise `RuntimeError` (modelled as `Except.error`). -/
def find_stm32_port : List UdevDevice → Except String String
  | [] => .error "STM32 Virtual COM Port not found!"
  | d :: ds =>
    match d.vendor_id, d.model_id with
    | some v, some m =>
      if v = "0483" ∧ m = "5740" then .ok d.device_node else find_stm32_port ds
    | _, _ => find_stm32_port ds

/-! ### Shutdown (`run` of both variants) -/

/-- Why the control loop in `run` stopped. -/
inductive ExitCause
  | quitRequested
  | interrupt
  | runtimeError
deriving Repr, DecidableEq

/-- The serial channel, tracking openness and how many times `close()` ran. -/
structure ChannelState where
  isOpen : Bool
  closeCount : Nat
deriving Repr, DecidableEq

/-- `serial.Serial.close()`. -/
def closeChannel (c : ChannelState) : ChannelState :=
  { isOpen := false, closeCount := c.closeCount + 1 }

/-- The `finally` block of `KeyboardControl.run`:
`if hasattr(self, 'ser') and self.ser.is_open: self.ser.close()`. -/
def keyboardTeardown (c : ChannelState) : ChannelState :=
  if c.isOpen then closeChannel c else c

/-- The `finally` block of `JoystickControl.run`: `self.ser.close()`. -/
def joystickTeardown (c : ChannelState) : ChannelState :=
  closeChannel c

/-- `KeyboardControl.run` as seen by the channel: the loop body never touches
the channel's open state (writes are fire-and-forget), and whichever way the
loop exits — quit event / window close, `KeyboardInterrupt`, or an exception
escaping the loop — the `finally` block runs. -/
def keyboardRun (_cause : ExitCause) (c : ChannelState) : ChannelState :=
  keyboardTeardown c

/-- `JoystickControl.run` as seen by the channel, mutatis mutandis. -/
def joystickRun (_cause : ExitCause) (c : ChannelState) : ChannelState :=
  joystickTeardown c

/-! ### Reachable states -/

/-- Keyboard states reachable from `__init__` by running ticks; each tick
carries that tick's queued event list and serial-write outcome. -/
def kReach (ticks : List (List KEvent × Bool)) : KState :=
  ticks.foldl (fun s t => (kTick s t.1 t.2).state) KState.init

/-- Joystick states reachable from `__init__` by running ticks; each tick
carries the two raw axis samples, the sampled X-button state, and the
serial-write outcome. -/
def jReach (ticks : List ((ℚ × ℚ) × Bool × Bool)) : JState :=
  ticks.foldl (fun s t => (jTickFull s t.1.1 t.1.2 t.2.1 t.2.2).state) JState.init

/-! ### Codec lemmas -/

theorem natToLEBytes_four (n : Nat) :
    natToLEBytes n 4 =
      [n % 256, n / 256 % 256, n / 256 / 256 % 256, n / 256 / 256 / 256 % 256] :=
  rfl

theorem leBytesToNat_natToLEBytes : ∀ (w n : Nat), leBytesToNat (natToLEBytes n w) = n % 256 ^ w
  | 0, n => by simp [natToLEBytes, leBytesToNat, Nat.mod_one]
  | w + 1, n => by
    rw [natToLEBytes, leBytesToNat, leBytesToNat_natToLEBytes w (n / 256), pow_succ',
      Nat.mod_mul]

theorem natToLEBytes_mem_lt : ∀ (w n : Nat), ∀ b ∈ natToLEBytes n w, b < 256
  | 0, _ => by simp [natToLEBytes]
  | w + 1, n => by
    intro b hb
    rw [natToLEBytes, List.mem_cons] at hb
    rcases hb with rfl | hb
    · exact Nat.mod_lt _ (by norm_num)
    · exact natToLEBytes_mem_lt w (n / 256) b hb

/-- C1: `encode` produces exactly 12 bytes — the little-endian two's-complement
int32 address followed by the two little-endian float32 bit patterns (left
wheel then right wheel) — and `decode` recovers the original address and both
velocity bit patterns for every address in `[0, 3]` and every pair of 32-bit
float32 patterns (hence every float32 value, including 0, negatives and
`MAX_SPEED = 1.0`). -/
theorem frame_roundtrip (addr : Int) (h0 : 0 ≤ addr) (h4 : addr < 4)
    (vl vr : Nat) (hvl : vl < 2 ^ 32) (hvr : vr < 2 ^ 32) :
    (encodeFrame addr vl vr).length = 12 ∧
    (∀ b ∈ encodeFrame addr vl vr, b < 256) ∧
    decodeFrame (encodeFrame addr vl vr) = some (addr, vl, vr) := by
  have haddr : int32ToNat addr = addr.toNat := by
    unfold int32ToNat
    rw [Int.emod_eq_of_lt h0 (by omega)]
  have haddr_lt : int32ToNat addr < 2 ^ 32 := by
    rw [haddr]; omega
  have hdec : decodeFrame (encodeFrame addr vl vr) =
      some (natToInt32 (leBytesToNat (natToLEBytes (int32ToNat addr) 4)),
            leBytesToNat (natToLEBytes vl 4),
            leBytesToNat (natToLEBytes vr 4)) := by
    simp only [encodeFrame, natToLEBytes_four, List.cons_append, List.nil_append]
    rfl
  have h256 : (256 : Nat) ^ 4 = 2 ^ 32 := by norm_num
  refine ⟨?_, ?_, ?_⟩
  · simp only [encodeFrame, natToLEBytes_four, List.cons_append, List.nil_append]
    rfl
  · intro b hb
    rw [encodeFrame, List.mem_append, List.mem_append] at hb
    rcases hb with (hb | hb) | hb
    · exact natToLEBytes_mem_lt 4 _ b hb
    · exact natToLEBytes_mem_lt 4 _ b hb
    · exact natToLEBytes_mem_lt 4 _ b hb
  · rw [hdec, leBytesToNat_natToLEBytes, leBytesToNat_natToLEBytes,
      leBytesToNat_natToLEBytes, h256, Nat.mod_eq_of_lt haddr_lt,
      Nat.mod_eq_of_lt hvl, Nat.mod_eq_of_lt hvr, haddr]
    have : natToInt32 addr.toNat = addr := by
      unfold natToInt32
      rw [if_pos (by omega), Int.toNat_of_nonneg h0]
    rw [this]

/-- Witness for C1: address 3 with the float32 bit patterns of
`1.0` (`0x3F800000`, `MAX_SPEED`) and `-1.0` (`0xBF800000`). -/
theorem frame_roundtrip_witness :
    (encodeFrame 3 0x3F800000 0xBF800000).length = 12 ∧
    (∀ b ∈ encodeFrame 3 0x3F800000 0xBF800000, b < 256) ∧
    decodeFrame (encodeFrame 3 0x3F800000 0xBF800000) = some (3, 0x3F800000, 0xBF800000) :=
  frame_roundtrip 3 (by norm_num) (by norm_num) 0x3F800000 0xBF800000
    (by norm_num) (by norm_num)

/-! ### Input-mapper theorems -/

/-- C2: the key-variant velocity derivation is the linear sum over the four
boolean intents starting from `(0,0)` — forward `(+MAX_SPEED, +MAX_SPEED)`,
backward `(-MAX_SPEED, -MAX_SPEED)`, left `(-MAX_SPEED/2, +MAX_SPEED/2)`,
right `(+MAX_SPEED/2, -MAX_SPEED/2)` — with no clamping after summation; each
single intent in isolation gives `(1,1)`, `(-1,-1)`, `(-1/2, 1/2)`,
`(1/2, -1/2)`, and forward together with left gives `(1/2, 3/2)`. -/
theorem key_velocity_derivation (st : KState) :
    ((update_velocities st).vl =
        (if st.forward then MAX_SPEED else 0) + (if st.backward then -MAX_SPEED else 0) +
          (if st.left then -(MAX_SPEED / 2) else 0) + (if st.right then MAX_SPEED / 2 else 0) ∧
      (update_velocities st).vr =
        (if st.forward then MAX_SPEED else 0) + (if st.backward then -MAX_SPEED else 0) +
          (if st.left then MAX_SPEED / 2 else 0) + (if st.right then -(MAX_SPEED / 2) else 0)) ∧
    (let fwd := update_velocities { KState.init with forward := true }
     (fwd.vl, fwd.vr) = (1, 1)) ∧
    (let bwd := update_velocities { KState.init with backward := true }
     (bwd.vl, bwd.vr) = (-1, -1)) ∧
    (let lft := update_velocities { KState.init with left := true }
     (lft.vl, lft.vr) = (-(1 / 2), 1 / 2)) ∧
    (let rgt := update_velocities { KState.init with right := true }
     (rgt.vl, rgt.vr) = (1 / 2, -(1 / 2))) ∧
    (let fl := update_velocities { KState.init with forward := true, left := true }
     (fl.vl, fl.vr) = (1 / 2, 3 / 2)) := by
  obtain ⟨id, vl0, vr0, f, b, l, r⟩ := st
  refine ⟨⟨?_, ?_⟩, ?_, ?_, ?_, ?_, ?_⟩ <;>
    cases f <;> cases b <;> cases l <;> cases r <;>
      simp [update_velocities, MAX_SPEED, KState.init] <;> norm_num

/-- C3: the axis-variant mapper sign-inverts the raw forward axis, zeroes any
axis of magnitude strictly below `0.1` (magnitude at least `0.1` passes
through unchanged), and mixes `left = (forward + turn) * MAX_SPEED`,
`right = (forward - turn) * MAX_SPEED`; raw readings giving
`(forward, turn) = (0.05, 0.05)` yield `(0, 0)` and readings giving
`(forward, turn) = (0.5, 0.5)` yield `(1, 0)`. -/
theorem axis_velocity_derivation :
    (∀ rawY rawX : ℚ,
        joyVelocities rawY rawX =
          ((deadzone (-rawY) + deadzone rawX) * MAX_SPEED,
           (deadzone (-rawY) - deadzone rawX) * MAX_SPEED)) ∧
    (∀ v : ℚ, |v| < 1 / 10 → deadzone v = 0) ∧
    (∀ v : ℚ, 1 / 10 ≤ |v| → deadzone v = v) ∧
    joyVelocities (-(1 / 20)) (1 / 20) = (0, 0) ∧
    joyVelocities (-(1 / 2)) (1 / 2) = (1, 0) := by
  refine ⟨fun rawY rawX => rfl, fun v hv => if_pos hv, fun v hv => if_neg (not_lt.mpr hv),
    ?_, ?_⟩
  · have h1 : deadzone (1 / 20 : ℚ) = 0 := by
      rw [deadzone, if_pos]
      rw [abs_lt]
      constructor <;> norm_num
    norm_num [joyVelocities, h1, MAX_SPEED]
  · have h2 : deadzone (1 / 2 : ℚ) = 1 / 2 := by
      rw [deadzone, if_neg]
      rw [not_lt, abs_of_pos] <;> norm_num
    norm_num [joyVelocities, h2, MAX_SPEED]

/-- Witness for C3's two conditional conjuncts: `0.05` is inside the dead zone
and `0.5` passes through unchanged. -/
theorem axis_velocity_derivation_witness :
    deadzone (1 / 20 : ℚ) = 0 ∧ deadzone (1 / 2 : ℚ) = 1 / 2 :=
  ⟨axis_velocity_derivation.2.1 (1 / 20) (by rw [abs_lt]; constructor <;> norm_num),
   axis_velocity_derivation.2.2.1 (1 / 2) (by rw [abs_of_pos] <;> norm_num)⟩

/-! ### Port-resolver theorems -/

theorem find_stm32_port_eq_find? :
    ∀ ds : List UdevDevice,
      find_stm32_port ds =
        match ds.find? matchesStm32 with
        | some d => Except.ok d.device_node
        | none => Except.error "STM32 Virtual COM Port not found!"
  | [] => rfl
  | ⟨none, mo, node⟩ :: ds => by
    have h1 : matchesStm32 ⟨none, mo, node⟩ = false := by simp [matchesStm32]
    rw [List.find?_cons, h1]
    exact find_stm32_port_eq_find? ds
  | ⟨some v, none, node⟩ :: ds => by
    have h1 : matchesStm32 ⟨some v, none, node⟩ = false := by simp [matchesStm32]
    rw [List.find?_cons, h1]
    exact find_stm32_port_eq_find? ds
  | ⟨some v, some m, node⟩ :: ds => by
    rw [List.find?_cons]
    by_cases hvm : v = "0483" ∧ m = "5740"
    · obtain ⟨rfl, rfl⟩ := hvm
      have h1 : matchesStm32 ⟨some "0483", some "5740", node⟩ = true := by
        simp [matchesStm32]
      rw [h1]
      show Except.ok node = Except.ok node
      rfl
    · have h1 : matchesStm32 ⟨some v, some m, node⟩ = false := by
        simp only [matchesStm32, decide_eq_false_iff_not]
        simpa using hvm
      rw [h1]
      show (if v = "0483" ∧ m = "5740" then Except.ok node else find_stm32_port ds) = _
      rw [if_neg hvm]
      exact find_stm32_port_eq_find? ds

/-- C4: the resolver returns the device node of the first enumerated device
whose ids are exactly `(0483, 5740)` (`List.find?` order), an entry missing
either id never matches and is skipped without error, and the resolver errors
out exactly when no enumerated device matches — in particular on the empty
list. -/
theorem port_resolver_first_match (ds : List UdevDevice) :
    (find_stm32_port ds =
        match ds.find? matchesStm32 with
        | some d => Except.ok d.device_node
        | none => Except.error "STM32 Virtual COM Port not found!") ∧
    ((find_stm32_port ds).toOption.isSome = ds.any matchesStm32) ∧
    (∀ d : UdevDevice, (d.vendor_id = none ∨ d.model_id = none) →
        matchesStm32 d = false ∧ find_stm32_port (d :: ds) = find_stm32_port ds) ∧
    find_stm32_port [] = Except.error "STM32 Virtual COM Port not found!" := by
  refine ⟨find_stm32_port_eq_find? ds, ?_, ?_, rfl⟩
  · rw [find_stm32_port_eq_find? ds]
    rcases h : ds.find? matchesStm32 with _ | d
    · have hany : ds.any matchesStm32 = false := by
        rw [List.any_eq_false]
        intro x hx
        simpa using List.find?_eq_none.mp h x hx
      simp [Except.toOption, hany]
    · have hany : ds.any matchesStm32 = true :=
        List.any_eq_true.mpr ⟨d, List.mem_of_find?_eq_some h, List.find?_some h⟩
      simp [Except.toOption, hany]
  · intro d hd
    have hm : matchesStm32 d = false := by
      rcases hd with hd | hd <;> simp [matchesStm32, hd]
    refine ⟨hm, ?_⟩
    rw [find_stm32_port_eq_find? (d :: ds), find_stm32_port_eq_find? ds,
      List.find?_cons, hm]

/-- Witness for C4's skipping conjunct: a device exposing only a model id is
skipped, so a singleton list of it resolves to the same error as the empty
list. -/
theorem port_resolver_first_match_witness :
    matchesStm32 ⟨none, some "5740", "/dev/ttyACM0"⟩ = false ∧
    find_stm32_port [⟨none, some "5740", "/dev/ttyACM0"⟩] = find_stm32_port [] :=
  (port_resolver_first_match []).2.2.1 ⟨none, some "5740", "/dev/ttyACM0"⟩ (Or.inl rfl)

/-! ### Robot-address lemmas -/

theorem emod4_nonneg_lt (i : Int) : 0 ≤ (i + 1) % 4 ∧ (i + 1) % 4 < 4 :=
  ⟨Int.emod_nonneg _ (by norm_num), Int.emod_lt_of_pos _ (by norm_num)⟩

theorem applyKeydown_robot_id (st : KState) (k : Key) :
    (applyKeydown st k).robot_id =
      if k = Key.x then (st.robot_id + 1) % 4 else st.robot_id := by
  cases k <;> simp [applyKeydown]

theorem applyKeyup_robot_id (st : KState) (k : Key) :
    (applyKeyup st k).robot_id = st.robot_id := by
  cases k <;> rfl

theorem update_velocities_robot_id (st : KState) :
    (update_velocities st).robot_id = st.robot_id :=
  rfl

theorem processEvents_robot_id_bound :
    ∀ (es : List KEvent) (st : KState), 0 ≤ st.robot_id → st.robot_id < 4 →
      0 ≤ (processEvents st es).1.robot_id ∧ (processEvents st es).1.robot_id < 4
  | [], _, h0, h4 => ⟨h0, h4⟩
  | .quit :: _, _, h0, h4 => ⟨h0, h4⟩
  | .keydown k :: es, st, h0, h4 => by
    by_cases hk : k = Key.escape
    · subst hk
      simpa [processEvents] using ⟨h0, h4⟩
    · have hb : 0 ≤ (applyKeydown st k).robot_id ∧ (applyKeydown st k).robot_id < 4 := by
        rw [applyKeydown_robot_id]
        by_cases hx : k = Key.x
        · simpa [hx] using emod4_nonneg_lt st.robot_id
        · simpa [hx] using ⟨h0, h4⟩
      simpa [processEvents, hk] using
        processEvents_robot_id_bound es (applyKeydown st k) hb.1 hb.2
  | .keyup k :: es, st, h0, h4 => by
    have hb0 : 0 ≤ (applyKeyup st k).robot_id := by rw [applyKeyup_robot_id]; exact h0
    have hb4 : (applyKeyup st k).robot_id < 4 := by rw [applyKeyup_robot_id]; exact h4
    simpa [processEvents] using processEvents_robot_id_bound es (applyKeyup st k) hb0 hb4

theorem kTick_robot_id (st : KState) (es : List KEvent) (w : Bool) :
    (kTick st es w).state.robot_id = (processEvents st es).1.robot_id := by
  simp only [kTick]
  by_cases h : (processEvents st es).2 <;> simp [h, update_velocities_robot_id]

theorem jTick_robot_id (st : JState) (btn : Bool) :
    (jTick st btn).robot_id =
      if btn && !st.last_x_button_state then (st.robot_id + 1) % 4 else st.robot_id := by
  simp only [jTick]
  by_cases h : (btn && !st.last_x_button_state) = true <;> simp [h]

theorem jTick_last (st : JState) (btn : Bool) :
    (jTick st btn).last_x_button_state = btn := by
  simp only [jTick]

theorem kReach_bound_aux :
    ∀ (ticks : List (List KEvent × Bool)) (st : KState), 0 ≤ st.robot_id → st.robot_id < 4 →
      0 ≤ (ticks.foldl (fun s t => (kTick s t.1 t.2).state) st).robot_id ∧
        (ticks.foldl (fun s t => (kTick s t.1 t.2).state) st).robot_id < 4
  | [], _, h0, h4 => ⟨h0, h4⟩
  | t :: ts, st, h0, h4 => by
    have hb : 0 ≤ (kTick st t.1 t.2).state.robot_id ∧
        (kTick st t.1 t.2).state.robot_id < 4 := by
      rw [kTick_robot_id]
      exact processEvents_robot_id_bound t.1 st h0 h4
    simpa using kReach_bound_aux ts _ hb.1 hb.2

theorem jTick_robot_id_bound (st : JState) (btn : Bool)
    (h0 : 0 ≤ st.robot_id) (h4 : st.robot_id < 4) :
    0 ≤ (jTick st btn).robot_id ∧ (jTick st btn).robot_id < 4 := by
  rw [jTick_robot_id]
  by_cases h : (btn && !st.last_x_button_state) = true
  · simpa [h] using emod4_nonneg_lt st.robot_id
  · simpa [h] using ⟨h0, h4⟩

theorem jReach_bound_aux :
    ∀ (ticks : List ((ℚ × ℚ) × Bool × Bool)) (st : JState),
      0 ≤ st.robot_id → st.robot_id < 4 →
      0 ≤ (ticks.foldl (fun s t => (jTickFull s t.1.1 t.1.2 t.2.1 t.2.2).state) st).robot_id ∧
        (ticks.foldl (fun s t => (jTickFull s t.1.1 t.1.2 t.2.1 t.2.2).state) st).robot_id < 4
  | [], _, h0, h4 => ⟨h0, h4⟩
  | t :: ts, st, h0, h4 => by
    have hb := jTick_robot_id_bound st t.2.1 h0 h4
    simpa using jReach_bound_aux ts (jTick st t.2.1) hb.1 hb.2

/-- C5: in every reachable state of either variant the robot address satisfies
`0 ≤ id < 4`; both variants start at 0; the only state transition that alters
the address is the explicit cycle action, which replaces it by
`(id + 1) % 4`; key releases, velocity derivation and axis input leave it
unchanged. -/
theorem robot_address_invariant :
    KState.init.robot_id = 0 ∧ JState.init.robot_id = 0 ∧
    (∀ ticks, 0 ≤ (kReach ticks).robot_id ∧ (kReach ticks).robot_id < 4) ∧
    (∀ ticks, 0 ≤ (jReach ticks).robot_id ∧ (jReach ticks).robot_id < 4) ∧
    (∀ (st : KState) (k : Key), (applyKeydown st k).robot_id =
        if k = Key.x then (st.robot_id + 1) % 4 else st.robot_id) ∧
    (∀ (st : KState) (k : Key), (applyKeyup st k).robot_id = st.robot_id) ∧
    (∀ st : KState, (update_velocities st).robot_id = st.robot_id) ∧
    (∀ (st : JState) (btn : Bool), (jTick st btn).robot_id =
        if btn && !st.last_x_button_state then (st.robot_id + 1) % 4 else st.robot_id) ∧
    (∀ (st : JState) (rawY rawX : ℚ) (btn w : Bool),
        (jTickFull st rawY rawX btn w).state = jTick st btn) :=
  ⟨rfl, rfl,
   fun ticks => kReach_bound_aux ticks KState.init (by decide) (by decide),
   fun ticks => jReach_bound_aux ticks JState.init (by decide) (by decide),
   applyKeydown_robot_id, applyKeyup_robot_id, update_velocities_robot_id,
   jTick_robot_id, fun _ _ _ _ _ => rfl⟩

theorem jTick_held_aux : ∀ (n : Nat) (st : JState),
    ((List.replicate (n + 1) true).foldl jTick st).robot_id =
      if st.last_x_button_state then st.robot_id else (st.robot_id + 1) % 4
  | 0, st => by
    rw [List.replicate_succ, List.replicate_zero]
    show (jTick st true).robot_id = _
    rw [jTick_robot_id]
    cases h : st.last_x_button_state <;> simp [h]
  | n + 1, st => by
    rw [List.replicate_succ]
    show ((List.replicate (n + 1) true).foldl jTick (jTick st true)).robot_id = _
    rw [jTick_held_aux n (jTick st true), jTick_last]
    simp only [Bool.true_eq_false, if_false]
    rw [jTick_robot_id]
    cases h : st.last_x_button_state <;> simp [h]

/-- C6: the joystick address update is edge-triggered — over any tick the
address advances modulo 4 exactly when the sampled button is true and the
stored previous state is false, the sampled state is stored for the next
tick, a button held over `n + 1` consecutive ticks produces exactly one
increment, and four consecutive edges from address 0 return it to 0. -/
theorem joystick_edge_trigger :
    (∀ (st : JState) (btn : Bool), (jTick st btn).robot_id =
        if btn && !st.last_x_button_state then (st.robot_id + 1) % 4 else st.robot_id) ∧
    (∀ (st : JState) (btn : Bool), (jTick st btn).last_x_button_state = btn) ∧
    (∀ (n : Nat) (st : JState),
        ((List.replicate (n + 1) true).foldl jTick st).robot_id =
          if st.last_x_button_state then st.robot_id else (st.robot_id + 1) % 4) ∧
    (([true, false, true, false, true, false, true].foldl jTick JState.init).robot_id = 0) :=
  ⟨jTick_robot_id, jTick_last, jTick_held_aux, by decide⟩

/-- C7: a failed serial write is absorbed inside `send_data`: with the same
input it leaves the post-tick control state (and, for the joystick, the
computed velocities) identical to a successful write, the loop's
continue/stop decision is unchanged, and on ticks that attempt a write an
error is logged exactly when the write failed — the write outcome never
terminates the loop. -/
theorem write_failure_isolated :
    (∀ (st : KState) (es : List KEvent) (w : Bool),
        (kTick st es w).state = (kTick st es true).state) ∧
    (∀ (st : KState) (es : List KEvent) (w : Bool),
        (kTick st es w).running = (kTick st es true).running) ∧
    (∀ (st : KState) (es : List KEvent),
        (kTick st es false).errorLogged = (kTick st es false).running) ∧
    (∀ (st : JState) (rawY rawX : ℚ) (btn w : Bool),
        (jTickFull st rawY rawX btn w).state = (jTickFull st rawY rawX btn true).state ∧
        (jTickFull st rawY rawX btn w).vl = (jTickFull st rawY rawX btn true).vl ∧
        (jTickFull st rawY rawX btn w).vr = (jTickFull st rawY rawX btn true).vr) ∧
    (∀ (st : JState) (rawY rawX : ℚ) (btn : Bool),
        (jTickFull st rawY rawX btn false).errorLogged = true) := by
  refine ⟨?_, ?_, ?_, fun _ _ _ _ _ => ⟨rfl, rfl, rfl⟩, fun _ _ _ _ => rfl⟩
  · intro st es w
    simp only [kTick]
    by_cases h : (processEvents st es).2 <;> simp [h]
  · intro st es w
    simp only [kTick]
    by_cases h : (processEvents st es).2 <;> simp [h]
  · intro st es
    simp only [kTick]
    by_cases h : (processEvents st es).2 <;> simp [h]

/-- C8: from the channel state `run` is entered with (open, never closed),
every exit cause — quit request, interrupt, or a runtime error after setup —
leaves the channel closed with exactly one `close()` call in both variants,
and the keyboard teardown guard does not close an already-closed channel. -/
theorem channel_closed_once :
    (∀ cause : ExitCause,
        keyboardRun cause ⟨true, 0⟩ = ⟨false, 1⟩ ∧
        joystickRun cause ⟨true, 0⟩ = ⟨false, 1⟩) ∧
    keyboardTeardown ⟨false, 1⟩ = ⟨false, 1⟩ :=
  ⟨fun _ => ⟨rfl, rfl⟩, rfl⟩

/-- C9: each directional intent is one shared boolean flag fed by two aliased
physical keys, so after pressing both aliased keys, releasing either one of
them alone forces the shared intent to false. -/
theorem aliased_keys_share_flag (st : KState) :
    ((processEvents st [.keydown .up, .keydown .w, .keyup .up]).1.forward = false ∧
     (processEvents st [.keydown .up, .keydown .w, .keyup .w]).1.forward = false) ∧
    ((processEvents st [.keydown .down, .keydown .s, .keyup .down]).1.backward = false ∧
     (processEvents st [.keydown .down, .keydown .s, .keyup .s]).1.backward = false) ∧
    ((processEvents st [.keydown .leftArrow, .keydown .a, .keyup .leftArrow]).1.left = false ∧
     (processEvents st [.keydown .leftArrow, .keydown .a, .keyup .a]).1.left = false) ∧
    ((processEvents st [.keydown .rightArrow, .keydown .d, .keyup .rightArrow]).1.right = false ∧
     (processEvents st [.keydown .rightArrow, .keydown .d, .keyup .d]).1.right = false) :=
  ⟨⟨rfl, rfl⟩, ⟨rfl, rfl⟩, ⟨rfl, rfl⟩, ⟨rfl, rfl⟩⟩

/-- C10: `JoystickControl.__init__` stores `last_x_button_state = False`, so a
button already held on the very first tick counts as a false→true edge and
moves the address from 0 to 1, with the held state then recorded. -/
theorem initial_button_state_edge :
    JState.init.last_x_button_state = false ∧
    JState.init.robot_id = 0 ∧
    (jTick JState.init true).robot_id = 1 ∧
    (jTick JState.init true).last_x_button_state = true := by
  refine ⟨rfl, rfl, by decide, rfl⟩

end VSSS
